import Mathlib

/-!
Verification of the hugo-bulder AI engine (Python microservice) against its
natural-language specification.  The Python sources under
`ai-engine/src` are shallowly embedded below: dictionaries become
association lists over a JSON-like value type, floats become rationals,
exceptions become `Except`, and `datetime.utcnow()` becomes an explicit
clock parameter.  Each embedded definition mirrors one Python function and
keeps its name.
-/

namespace HugoBulder

/-- JSON-like Python value, as passed around in the engine's dicts.
Numbers are modelled as rationals. -/
inductive Val where
  | vNone : Val
  | vBool : Bool → Val
  | vNum : Rat → Val
  | vStr : String → Val
  | vList : List Val → Val
  | vDict : List (String × Val) → Val
deriving Repr, Inhabited

/-- Python truthiness of a value (`bool(v)`). -/
def Val.truthy : Val → Bool
  | .vNone => false
  | .vBool b => b
  | .vNum q => q != 0
  | .vStr s => s != ""
  | .vList xs => !xs.isEmpty
  | .vDict kvs => !kvs.isEmpty

/-- Association list standing in for a Python `dict` keyed by strings. -/
abbrev AList := List (String × Val)

/-- Python `d.get(k)`: `some v` when the key is present, `none` otherwise. -/
def AList.get? (d : AList) (k : String) : Option Val :=
  match d.find? (fun kv => kv.1 == k) with
  | some kv => some kv.2
  | none => none

/-- Python `d.get(k, default)`. -/
def AList.getD (d : AList) (k : String) (default : Val) : Val :=
  match d.get? k with
  | some v => v
  | none => default

/-- Python `d[k] = v`: replaces an existing binding, else appends. -/
def AList.set (d : AList) (k : String) (v : Val) : AList :=
  match d with
  | [] => [(k, v)]
  | kv :: rest => if kv.1 == k then (k, v) :: rest else kv :: AList.set rest k v

/-- Truthiness of `d.get(k)` with a falsy default, as in `if not d.get(k)`. -/
def AList.truthyAt (d : AList) (k : String) : Bool :=
  match d.get? k with
  | some v => v.truthy
  | none => false

/-- Membership of a key in a dict (`k in d`). -/
def AList.hasKey (d : AList) (k : String) : Bool :=
  (d.get? k).isSome

/-- Workflow execution status, from `workflows/base.py` (`WorkflowStatus`). -/
inductive WorkflowStatus where
  | pending
  | running
  | completed
  | failed
  | cancelled
  | paused
deriving Repr, DecidableEq

/-- Workflow state, from `workflows/base.py` (`WorkflowState`).  Only the
fields the workflow logic reads or writes are carried; timestamps are
rationals fed from an explicit clock. -/
structure WorkflowState where
  projectId : String
  userId : String
  workflowId : String := ""
  wizardData : AList := []
  generatedContent : AList := []
  currentStep : String := ""
  progress : Rat := 0
  status : WorkflowStatus := .pending
  errors : List String := []
  warnings : List String := []
  metadata : AList := []
  completedAt : Option Rat := none
  lastUpdated : Option Rat := none
  agentResults : AList := []
  retryCount : Nat := 0
  maxRetries : Nat := 3
deriving Repr

/-- `WorkflowState.update_progress`: clamps progress into [0, 100], updates
the step and timestamp, optionally sets the status, and on COMPLETED pins
progress to 100 and records the completion time.  `now` is the value of
`datetime.utcnow()`. -/
def WorkflowState.update_progress (s : WorkflowState) (step : String)
    (progress : Rat) (status : Option WorkflowStatus) (now : Rat) :
    WorkflowState :=
  let s1 : WorkflowState := { s with
    currentStep := step
    progress := min (100 : Rat) (max (0 : Rat) progress)
    lastUpdated := some now }
  let s2 := match status with
    | some st => { s1 with status := st }
    | none => s1
  if status = some .completed then
    { s2 with completedAt := some now, progress := 100 }
  else s2

/-- `WorkflowState.add_error`: appends the message, prefixed with the step
in square brackets when a step is given. -/
def WorkflowState.add_error (s : WorkflowState) (error : String)
    (step : Option String) (now : Rat) : WorkflowState :=
  let errorMsg := match step with
    | some st => "[" ++ st ++ "] " ++ error
    | none => error
  { s with errors := s.errors ++ [errorMsg], lastUpdated := some now }

/-- `WorkflowState.add_warning`: appends the message, prefixed with the
step in square brackets when a step is given. -/
def WorkflowState.add_warning (s : WorkflowState) (warning : String)
    (step : Option String) (now : Rat) : WorkflowState :=
  let warningMsg := match step with
    | some st => "[" ++ st ++ "] " ++ warning
    | none => warning
  { s with warnings := s.warnings ++ [warningMsg], lastUpdated := some now }

/-- `WorkflowState.can_retry`. -/
def WorkflowState.can_retry (s : WorkflowState) : Bool :=
  s.retryCount < s.maxRetries

/-- `WorkflowState.increment_retry`. -/
def WorkflowState.increment_retry (s : WorkflowState) (now : Rat) :
    WorkflowState :=
  { s with retryCount := s.retryCount + 1, lastUpdated := some now }

/-- `WorkflowState.reset_for_retry`: clears errors, resets status to
PENDING, progress to 0 and the current step to empty. -/
def WorkflowState.reset_for_retry (s : WorkflowState) (now : Rat) :
    WorkflowState :=
  { s with
    errors := []
    status := .pending
    progress := 0
    currentStep := ""
    lastUpdated := some now }

/-- `WorkflowState.set_agent_result`: stores a result dict under the agent
name together with a timestamp and the current step. -/
def WorkflowState.set_agent_result (s : WorkflowState) (agentName : String)
    (result : Val) (now : Rat) : WorkflowState :=
  { s with agentResults := s.agentResults.set agentName (.vDict
      [("result", result), ("timestamp", .vNum now),
       ("step", .vStr s.currentStep)]) }

/-! ## Website generation workflow graph (`workflows/website_generation.py`) -/

/-- Configuration read by `WebsiteGenerationWorkflow.__init__`. -/
structure WorkflowConfig where
  parallelExecution : Bool := false
  skipOnErrors : Bool := false
deriving Repr

/-- Nodes of the LangGraph state graph built by `setup_graph`, plus the
terminal `END` marker. -/
inductive GraphNode where
  | analyzeRequirements
  | generateContent
  | optimizeSeo
  | planStructure
  | finalizeOutput
  | handleError
  | endNode
deriving Repr, DecidableEq

/-- `_should_continue_after_requirements`: returns the edge label and the
(possibly error-extended) state. -/
def should_continue_after_requirements (cfg : WorkflowConfig)
    (s : WorkflowState) (now : Rat) : String × WorkflowState :=
  if s.errors ≠ [] ∧ ¬cfg.skipOnErrors then ("error", s)
  else if ¬s.metadata.truthyAt "content_strategy" then
    ("error",
      s.add_error "Requirements analysis failed to generate content strategy"
        none now)
  else ("continue", s)

/-- `_should_continue_after_content`. -/
def should_continue_after_content (cfg : WorkflowConfig)
    (s : WorkflowState) (now : Rat) : String × WorkflowState :=
  if s.errors ≠ [] ∧ ¬cfg.skipOnErrors then ("error", s)
  else if s.generatedContent.isEmpty then
    ("error",
      s.add_error "Content generation failed to produce content" none now)
  else ("continue", s)

/-- `_should_continue_after_seo`: SEO is optional, so only recorded errors
can stop the workflow here. -/
def should_continue_after_seo (cfg : WorkflowConfig)
    (s : WorkflowState) (_now : Rat) : String × WorkflowState :=
  if s.errors ≠ [] ∧ ¬cfg.skipOnErrors then ("error", s)
  else ("continue", s)

/-- `_should_continue_after_structure`. -/
def should_continue_after_structure (cfg : WorkflowConfig)
    (s : WorkflowState) (_now : Rat) : String × WorkflowState :=
  if s.errors ≠ [] ∧ ¬cfg.skipOnErrors then ("error", s)
  else ("continue", s)

/-- The edge relation of the compiled graph from `setup_graph`: given the
node that just ran and the resulting state, the node run next (`none` once
`END` is reached).  The conditional edges map label "continue" to the next
stage and "error" to `handle_error`; `finalize_output` and `handle_error`
both lead to `END`. -/
def workflowNext (cfg : WorkflowConfig) (node : GraphNode)
    (s : WorkflowState) (now : Rat) : Option GraphNode :=
  match node with
  | .analyzeRequirements =>
      some (if (should_continue_after_requirements cfg s now).1 = "continue"
        then .generateContent else .handleError)
  | .generateContent =>
      some (if (should_continue_after_content cfg s now).1 = "continue"
        then .optimizeSeo else .handleError)
  | .optimizeSeo =>
      some (if (should_continue_after_seo cfg s now).1 = "continue"
        then .planStructure else .handleError)
  | .planStructure =>
      some (if (should_continue_after_structure cfg s now).1 = "continue"
        then .finalizeOutput else .handleError)
  | .finalizeOutput => some .endNode
  | .handleError => some .endNode
  | .endNode => none

/-- The `final_output` dict packaged by `_finalize_output_node`, before the
validation entry is added. -/
def finalOutputPackage (s : WorkflowState) (now : Rat) : AList :=
  [("metadata", .vDict
      [("workflow_id", .vStr s.workflowId),
       ("generated_at", .vNum now),
       ("workflow_version", .vStr "1.0.0"),
       ("agents_used", .vList
         [.vStr "RequirementsAnalyzer", .vStr "ContentGenerator",
          .vStr "SEOOptimizer", .vStr "StructurePlanner"])]),
   ("content", .vDict s.generatedContent),
   ("seo", s.metadata.getD "seo_optimization" (.vDict [])),
   ("structure", s.metadata.getD "site_structure" (.vDict [])),
   ("navigation", s.metadata.getD "navigation" (.vDict [])),
   ("url_structure", s.metadata.getD "url_structure" (.vDict [])),
   ("structured_data", s.metadata.getD "structured_data" (.vDict [])),
   ("strategy", s.metadata.getD "content_strategy" (.vDict [])),
   ("page_hierarchy", s.metadata.getD "page_hierarchy" (.vDict [])),
   ("footer_structure", s.metadata.getD "footer_structure" (.vDict [])),
   ("seo_recommendations", s.metadata.getD "seo_recommendations" (.vList [])),
   ("sitemap_structure", s.metadata.getD "sitemap_structure" (.vDict []))]

/-- `_finalize_output_node`: packages all generated data, runs quality
validation (whose result dict is abstracted as the `validation` argument,
since it is only stored, never branched on), checks the required sections
`content`, `structure`, `navigation`, and either fails the state or stores
the final output and completes it. -/
def finalize_output_node (validation : Val) (s : WorkflowState) (now : Rat) :
    WorkflowState :=
  let s1 := s.update_progress "Finalizing output" 98 none now
  let finalOutput := (finalOutputPackage s1 now).set "validation" validation
  let requiredSections := ["content", "structure", "navigation"]
  let missingSections :=
    requiredSections.filter (fun sec => !finalOutput.truthyAt sec)
  if missingSections ≠ [] then
    let s2 := s1.add_error
      ("Missing required sections: " ++ String.intercalate ", " missingSections)
      none now
    { s2 with status := .failed }
  else
    let s2 := { s1 with
      metadata := s1.metadata.set "final_output" (.vDict finalOutput) }
    s2.update_progress "Website generation completed" 100 (some .completed) now

/-- `_handle_error_node`: marks the state FAILED and, when partial data
exists, stores a partial-output dict listing the completed steps. -/
def handle_error_node (s : WorkflowState) : WorkflowState :=
  let s1 : WorkflowState := { s with status := .failed }
  if ¬s1.generatedContent.isEmpty ∨ ¬s1.metadata.isEmpty then
    let completedSteps :=
      (if s1.metadata.truthyAt "content_strategy"
        then [Val.vStr "requirements_analysis"] else []) ++
      (if ¬s1.generatedContent.isEmpty
        then [Val.vStr "content_generation"] else []) ++
      (if s1.metadata.truthyAt "seo_optimization"
        then [Val.vStr "seo_optimization"] else []) ++
      (if s1.metadata.truthyAt "site_structure"
        then [Val.vStr "structure_planning"] else [])
    let partialOutput : AList :=
      [("partial", .vBool true),
       ("completed_steps", .vList completedSteps),
       ("content", .vDict s1.generatedContent),
       ("metadata", .vDict (s1.metadata.filter (fun kv => kv.2.truthy))),
       ("errors", .vList (s1.errors.map Val.vStr)),
       ("warnings", .vList (s1.warnings.map Val.vStr))]
    { s1 with metadata := s1.metadata.set "partial_output" (.vDict partialOutput) }
  else s1

/-! ## Workflow execution with retry (`workflows/base.py`, `BaseWorkflow`) -/

/-- Outcome of `BaseWorkflow._execute_with_retry`: the returned (or
re-raised) result, the final `self.state`, and the seconds slept before
each retry, in order. -/
structure RetryTrace where
  result : Except String WorkflowState
  finalSelf : WorkflowState
  sleeps : List Nat
deriving Repr

/-- `BaseWorkflow._execute_with_retry`.  `graphInvoke n st` is the result
of the `n`-th `graph.ainvoke(self.state)` attempt (`.error e` when it
raises).  On an exception with retries left: increment the retry counter,
record a warning, sleep `min (2 ^ retry_count) 30` seconds, reset the
state, and loop; once retries are exhausted, append the max-retries error
and re-raise. -/
def execute_with_retry (graphInvoke : Nat → WorkflowState → Except String WorkflowState)
    (st : WorkflowState) (now : Rat) : RetryTrace :=
  match graphInvoke st.retryCount st with
  | .ok result => ⟨.ok result, st, []⟩
  | .error e =>
    if h : st.can_retry then
      let st1 := (st.increment_retry now).add_warning
        ("Retrying after error: " ++ e) none now
      let waitTime := min (2 ^ st1.retryCount) 30
      let st2 := st1.reset_for_retry now
      let rest := execute_with_retry graphInvoke st2 now
      ⟨rest.result, rest.finalSelf, waitTime :: rest.sleeps⟩
    else
      let errorMsg := "Execution attempt " ++ toString (st.retryCount + 1) ++
        " failed: " ++ e
      ⟨.error e, st.add_error ("Max retries reached. " ++ errorMsg) none now, []⟩
termination_by st.maxRetries - st.retryCount
decreasing_by
  simp only [WorkflowState.can_retry, decide_eq_true_eq] at h
  simp [WorkflowState.reset_for_retry, WorkflowState.add_warning,
    WorkflowState.increment_retry]
  omega

/-- `BaseWorkflow.run`.  The whole `try` body (graph setup plus
`_execute_with_retry`) is abstracted as `body`; an `.error (e, stR)`
outcome means an exception `e` escaped the body leaving `self.state` at
`stR`.  The exception is never propagated: the state is returned with the
error appended and status FAILED. -/
def workflow_run (body : WorkflowState → Except (String × WorkflowState) WorkflowState)
    (initialState : WorkflowState) (now : Rat) : WorkflowState :=
  let st : WorkflowState := { initialState with status := .running }
  match body st with
  | .ok result =>
      if result.errors.isEmpty then
        result.update_progress "Workflow completed" 100 (some .completed) now
      else { result with status := .failed }
  | .error (e, stAtRaise) =>
      let st1 := stAtRaise.add_error ("Workflow execution failed: " ++ e) none now
      { st1 with status := .failed }

/-! ## Agent execution (`workflows/agents/base_agent.py`, `BaseAgent`) -/

/-- The `except` branch of `BaseAgent.safe_execute`: append the error and
record a failed agent result. -/
def agent_failure (st : WorkflowState) (agentName model : String)
    (e : String) (executionTime : Rat) (stats : Val) (now : Rat) :
    WorkflowState :=
  let errorMsg := "Agent " ++ agentName ++ " failed: " ++ e
  let st1 := st.add_error errorMsg (some agentName) now
  st1.set_agent_result agentName (.vDict
    [("success", .vBool false), ("error", .vStr e),
     ("execution_time", .vNum executionTime),
     ("model_used", .vStr model), ("stats", stats)]) now

/-- `BaseAgent.safe_execute`.  The overridable pieces are parameters:
`validateInputs` (the `validate_inputs` hook), `preExecute`, `exec` and
`postExecute` (each `.error e` when it raises).  `executionTime` stands
for `time.time() - start_time` and `stats` for
`self.execution_stats.copy()`.  Mirrors the Python variable flow: the
`except` branch reads the local `state`, which after a successful
`pre_execute` refers to its result. -/
def safe_execute (validateInputs : WorkflowState → List String)
    (preExecute exec postExecute : WorkflowState → Except String WorkflowState)
    (agentName model : String) (executionTime : Rat) (stats : Val)
    (s : WorkflowState) (now : Rat) : WorkflowState :=
  let validationErrors := validateInputs s
  if validationErrors ≠ [] then
    validationErrors.foldl (fun st e => st.add_error e (some agentName) now) s
  else
    match preExecute s with
    | .error e => agent_failure s agentName model e executionTime stats now
    | .ok statePre =>
      match exec statePre with
      | .error e => agent_failure statePre agentName model e executionTime stats now
      | .ok resultState =>
        match postExecute resultState with
        | .error e => agent_failure statePre agentName model e executionTime stats now
        | .ok resultState2 =>
            resultState2.set_agent_result agentName (.vDict
              [("success", .vBool true),
               ("execution_time", .vNum executionTime),
               ("model_used", .vStr model), ("stats", stats)]) now

/-- `BaseAgent.validate_inputs` (the base implementation): complains when
no wizard data is present. -/
def validate_inputs (s : WorkflowState) : List String :=
  if s.wizardData.isEmpty then ["No wizard data provided"] else []

/-! ## Advanced generation API (`api/generation.py`) -/

/-- `api/generation.py`'s own `WorkflowStatus` enum (distinct from the
workflow-layer one). -/
inductive GenStatus where
  | queued
  | initializing
  | analyzing
  | generating
  | optimizing
  | finalizing
  | completed
  | failed
deriving Repr, DecidableEq

/-- One entry of a generation record's `workflow_steps` list. -/
structure WorkflowStepRec where
  stepName : String
  status : String
  startedAt : Option Rat := none
  completedAt : Option Rat := none
  duration : Option Rat := none
  output : Option Val := none
  error : Option String := none
deriving Repr

/-- A record of the in-memory `advanced_generation_store`. -/
structure GenRecord where
  generationId : String
  projectId : String
  status : GenStatus
  progress : Rat := 0
  currentStep : Option String := none
  workflowSteps : List WorkflowStepRec := []
  content : Val := .vDict []
  metadata : AList := []
  analytics : Option Val := none
  createdAt : Rat
  completedAt : Option Rat := none
  error : Option String := none
  backendNotified : Bool := false
  hugoGenerationRequested : Bool := false
deriving Repr

/-- The module-level `advanced_generation_store` dict. -/
abbrev GenStore := List (String × GenRecord)

/-- Key lookup in the store. -/
def GenStore.lookup (store : GenStore) (genId : String) : Option GenRecord :=
  match store.find? (fun kv => kv.1 == genId) with
  | some kv => some kv.2
  | none => none

/-- `store[k] = v`: replaces an existing binding, else appends. -/
def GenStore.set (store : GenStore) (genId : String) (r : GenRecord) : GenStore :=
  match store with
  | [] => [(genId, r)]
  | kv :: rest =>
      if kv.1 == genId then (genId, r) :: rest else kv :: GenStore.set rest genId r

/-- `del store[k]`. -/
def GenStore.erase (store : GenStore) (genId : String) : GenStore :=
  match store with
  | [] => []
  | kv :: rest => if kv.1 == genId then rest else kv :: GenStore.erase rest genId

/-- `AdvancedGenerationRequest` with exactly its declared Pydantic
fields. -/
structure AdvancedGenerationRequest where
  projectId : String
  generationType : String
  businessContext : AList
  contentRequirements : AList
  workflowOptions : AList := []
  qualityLevel : String := "standard"
  includeAnalytics : Bool := true
  autoNotifyBackend : Bool := true
  requestHugoGeneration : Bool := false
  userId : Option String := none
  authToken : Option String := none
deriving Repr

/-- Pydantic attribute access on an `AdvancedGenerationRequest`: `some`
for the declared fields, `none` (an `AttributeError`) otherwise. -/
def AdvancedGenerationRequest.getattr (req : AdvancedGenerationRequest)
    (attr : String) : Option Val :=
  if attr = "project_id" then some (.vStr req.projectId)
  else if attr = "generation_type" then some (.vStr req.generationType)
  else if attr = "business_context" then some (.vDict req.businessContext)
  else if attr = "content_requirements" then some (.vDict req.contentRequirements)
  else if attr = "workflow_options" then some (.vDict req.workflowOptions)
  else if attr = "quality_level" then some (.vStr req.qualityLevel)
  else if attr = "include_analytics" then some (.vBool req.includeAnalytics)
  else if attr = "auto_notify_backend" then some (.vBool req.autoNotifyBackend)
  else if attr = "request_hugo_generation" then some (.vBool req.requestHugoGeneration)
  else if attr = "user_id" then
    some (match req.userId with | some u => .vStr u | none => .vNone)
  else if attr = "auth_token" then
    some (match req.authToken with | some t => .vStr t | none => .vNone)
  else none

/-- The fresh generation record initialised by `start_advanced_generation`
before it is stored. -/
def initialGenRecord (req : AdvancedGenerationRequest)
    (generationId requestId : String) (now : Rat) : GenRecord :=
  { generationId := generationId
    projectId := req.projectId
    status := .queued
    progress := 0
    currentStep := none
    workflowSteps := []
    content := .vDict []
    metadata :=
      [("request_id", .vStr requestId),
       ("generation_type", .vStr req.generationType),
       ("quality_level", .vStr req.qualityLevel),
       ("models_used", .vList []),
       ("total_tokens", .vNum 0),
       ("generation_time", .vNone)]
    analytics := none
    createdAt := now
    completedAt := none
    error := none
    backendNotified := false
    hugoGenerationRequested := false }

/-- `start_advanced_generation`: generates a fresh UUID, runs the debug
logging block — whose line
`logger.info("... Model settings:", model_settings=request.model_settings)`
evaluates `request.model_settings`, an attribute the request model does
not declare — and only then initialises and stores the generation record.
An `.error` outcome is an exception escaping the handler, leaving the
store untouched. -/
def start_advanced_generation (store : GenStore)
    (req : AdvancedGenerationRequest) (generationId requestId : String)
    (now : Rat) : Except String GenStore :=
  match req.getattr "model_settings" with
  | none => .error "AttributeError: model_settings"
  | some _ =>
      .ok (store.set generationId (initialGenRecord req generationId requestId now))

/-- `get_advanced_generation_status`: a pure read; 404 when the id is
absent. -/
def get_advanced_generation_status (store : GenStore) (generationId : String) :
    Except Nat GenRecord :=
  match store.lookup generationId with
  | none => .error 404
  | some record => .ok record

/-- `cancel_generation`: 404 when the id is absent, 400 when already
completed or failed, else the record at `generationId` is flipped to
FAILED with a cancellation message. -/
def cancel_generation (store : GenStore) (generationId : String) (now : Rat) :
    Except Nat GenStore :=
  match store.lookup generationId with
  | none => .error 404
  | some record =>
      if record.status = .completed ∨ record.status = .failed then
        .error 400
      else
        .ok (store.set generationId { record with
          status := .failed
          completedAt := some now
          error := some "Generation cancelled by user" })

/-- `delete_generation`: 404 when the id is absent, else exactly the key
`generationId` is removed. -/
def delete_generation (store : GenStore) (generationId : String) :
    Except Nat GenStore :=
  match store.lookup generationId with
  | none => .error 404
  | some _ => .ok (store.erase generationId)

/-- `get_generation_analytics`: a pure read; 404 when the id is absent,
400 unless the generation is completed. -/
def get_generation_analytics (store : GenStore) (generationId : String) :
    Except Nat GenRecord :=
  match store.lookup generationId with
  | none => .error 404
  | some record =>
      if record.status ≠ .completed then .error 400
      else .ok record

/-- Updates the last element of a list, as the `record["workflow_steps"][-1]`
assignments do. -/
def updateLast (f : α → α) : List α → List α
  | [] => []
  | [x] => [f x]
  | x :: y :: rest => x :: updateLast f (y :: rest)

/-- The `except` branch of `process_advanced_generation`: the record ends
FAILED with the exception message, a completion time, and the most recent
workflow step (when one exists) marked failed. -/
def mark_generation_failed (record : GenRecord) (errorMsg : String)
    (now : Rat) : GenRecord :=
  let rec1 : GenRecord := { record with
    status := .failed
    error := some errorMsg
    completedAt := some now }
  if rec1.workflowSteps.isEmpty then rec1
  else
    let failStep := fun (step : WorkflowStepRec) => { step with
      status := "failed"
      error := some errorMsg
      completedAt := some now }
    { rec1 with workflowSteps := updateLast failStep rec1.workflowSteps }

/-- `process_advanced_generation`, with its long `try` body (model
selection, the generation steps, notifications) abstracted as `body`
acting on the stored record; `.error e` means an exception escaped the
body. -/
def process_advanced_generation (body : GenRecord → Except String GenRecord)
    (record : GenRecord) (now : Rat) : GenRecord :=
  match body record with
  | .ok r => r
  | .error e => mark_generation_failed record e now

/-! ## Python value operations shared by the embedded services -/

/-- Python `v.get(k, default)` on an arbitrary value: only dicts have a
`get` method, anything else raises. -/
def Val.pyGet (v : Val) (k : String) (default : Val) : Except String Val :=
  match v with
  | .vDict kvs => .ok (AList.getD kvs k default)
  | _ => .error "AttributeError"

/-- Python `k in v` for a string `k`: key membership for dicts, element
membership for lists, substring test for strings, `TypeError`
otherwise. -/
def Val.pyIn (v : Val) (k : String) : Except String Bool :=
  match v with
  | .vDict kvs => .ok (AList.hasKey kvs k)
  | .vList xs => .ok (xs.any (fun x =>
      match x with
      | .vStr s2 => s2 == k
      | _ => false))
  | .vStr s => .ok (2 ≤ (s.splitOn k).length)
  | _ => .error "TypeError"

/-- Python `v[k]` for a string `k`: dict lookup (`KeyError` when absent),
`TypeError` for every other value. -/
def Val.pyIndex (v : Val) (k : String) : Except String Val :=
  match v with
  | .vDict kvs =>
      match AList.get? kvs k with
      | some x => .ok x
      | none => .error "KeyError"
  | _ => .error "TypeError"

/-- Python iteration over a value: the elements of a list, the keys of a
dict, the characters of a string, `TypeError` otherwise. -/
def Val.pyIter (v : Val) : Except String (List Val) :=
  match v with
  | .vList xs => .ok xs
  | .vDict kvs => .ok (kvs.map (fun kv => Val.vStr kv.1))
  | .vStr s => .ok (s.toList.map (fun c => Val.vStr (String.singleton c)))
  | _ => .error "TypeError"

/-! ## Content generator agent (`workflows/agents/content_generator.py`) -/

/-- `ContentGenerator._has_blog_structure`, with Python's short-circuit
`or`: the wizard's website structure indicates a blog when `hasBlog` is
truthy, or `"blog"` is among the selected pages, or its `type` equals
`"blog"`. -/
def has_blog_structure (wizardData : AList) : Except String Bool := do
  let structureVal := wizardData.getD "websiteStructure" (.vDict [])
  let hasBlog ← structureVal.pyGet "hasBlog" (.vBool false)
  if hasBlog.truthy then pure true
  else
    let selectedPages ← structureVal.pyGet "selectedPages" (.vList [])
    let blogSelected ← selectedPages.pyIn "blog"
    if blogSelected then pure true
    else
      let structureType ← structureVal.pyGet "type" .vNone
      pure (match structureType with
        | .vStr s2 => s2 == "blog"
        | _ => false)

/-- `ContentGenerator._generate_additional_pages`: adds `faq`,
`testimonials`, `privacy` and `terms` entries according to the selected
pages of the website structure.  The LLM-backed page builders are
abstracted by `oracle`. -/
def generate_additional_pages (oracle : String → Val) (wizardData : AList) :
    Except String AList := do
  let websiteStructure := wizardData.getD "websiteStructure" (.vDict [])
  let selectedPages ← websiteStructure.pyGet "selectedPages" (.vList [])
  let hasFaq ← selectedPages.pyIn "faq"
  let hasTestimonials ← selectedPages.pyIn "testimonials"
  let hasPrivacy ← selectedPages.pyIn "privacy"
  let hasTerms ← selectedPages.pyIn "terms"
  pure ((if hasFaq then [("faq", oracle "faq")] else []) ++
    (if hasTestimonials then [("testimonials", oracle "testimonials")] else []) ++
    (if hasPrivacy then [("privacy", oracle "privacy")] else []) ++
    (if hasTerms then [("terms", oracle "terms")] else []))

/-- The `content` dict built by `ContentGenerator.execute`:
homepage and about always; `services` only when `selectedServices` is
truthy; contact always; `blog_posts` only when the structure has a blog;
then the additional pages merged in with `content.update(...)`.  The
`_generate_*` helpers (prompt construction plus the LLM call) are
abstracted by `oracle`. -/
def content_generator_content (oracle : String → Val) (wizardData : AList) :
    Except String AList := do
  let content : AList := [("homepage", oracle "homepage")]
  let content := content.set "about" (oracle "about")
  let content :=
    if wizardData.truthyAt "selectedServices" then
      content.set "services" (oracle "services")
    else content
  let content := content.set "contact" (oracle "contact")
  let hasBlog ← has_blog_structure wizardData
  let content :=
    if hasBlog then content.set "blog_posts" (oracle "blog_posts")
    else content
  let additionalContent ← generate_additional_pages oracle wizardData
  pure (additionalContent.foldl (fun c kv => c.set kv.1 kv.2) content)

/-- `ContentGenerator.execute`: on success the content dict is stored in
`generated_content` and progress reaches 60; when the body raises, the
error is recorded and the state returned (the intermediate progress
checkpoints of the failing path are not tracked). -/
def content_generator_execute (oracle : String → Val) (s : WorkflowState)
    (now : Rat) : WorkflowState :=
  match content_generator_content oracle s.wizardData with
  | .ok content =>
      let s1 : WorkflowState := { s with generatedContent := content }
      s1.update_progress "Content generation completed" 60 none now
  | .error e =>
      s.add_error ("Content generation failed: " ++ e)
        (some "ContentGenerator") now

/-! ## Model manager (`services/model_manager.py`) -/

/-- `ModelStatus` from `services/model_manager.py`. -/
structure ModelStatus where
  name : String
  status : String
  lastTested : Option Rat := none
  testLatency : Rat := 0
  errorCount : Nat := 0
  lastError : Option String := none
  downloadProgress : Rat := 0
  sizeGb : Rat := 0
  memoryUsageGb : Rat := 0
  performanceScore : Rat := 0
deriving Repr

/-- The manager's `model_statuses` dict. -/
abbrev ModelStatuses := List (String × ModelStatus)

/-- Lookup in `model_statuses`. -/
def ModelStatuses.lookup (statuses : ModelStatuses) (modelName : String) :
    Option ModelStatus :=
  match statuses.find? (fun kv => kv.1 == modelName) with
  | some kv => some kv.2
  | none => none

/-- `ModelManager._is_model_healthy`: requires a recorded status that is
"available", at most five errors, a last test (when recorded) within the
past hour, and a performance score of at least 50.  `now` is
`datetime.utcnow()` in seconds. -/
def is_model_healthy (statuses : ModelStatuses) (modelName : String)
    (now : Rat) : Bool :=
  match statuses.lookup modelName with
  | none => false
  | some status =>
    if status.status ≠ "available" then false
    else if status.errorCount > 5 then false
    else if (match status.lastTested with
      | some t => decide (now - t > 3600)
      | none => false) then false
    else if status.performanceScore < 50 then false
    else true

/-- `ModelManager._calculate_performance_score`: starts from 100, applies
a latency penalty capped at 30, an error penalty capped at 20 and a
token-throughput penalty capped at 20, then clamps at 0 from below.
`evalCount` and `evalDuration` are `test_response.get("eval_count", 0)`
and `test_response.get("eval_duration", 0)` (the latter in
nanoseconds). -/
def calculate_performance_score (status : ModelStatus)
    (evalCount evalDuration : Rat) : Rat :=
  let score : Rat := 100
  let score :=
    if status.testLatency > 2 then
      score - min 30 ((status.testLatency - 2) * 10)
    else score
  let score :=
    if status.errorCount > 0 then
      score - min 20 ((status.errorCount : Rat) * 5)
    else score
  let score :=
    if evalDuration > 0 then
      let tokensPerSecond := evalCount / (evalDuration / 1000000000)
      if tokensPerSecond < 10 then
        score - min 20 ((10 - tokensPerSecond) * 2)
      else score
    else score
  max 0 score

/-! ## Ollama HTTP client (`services/ollama_client.py`) -/

/-- Outcome of the underlying HTTP call in `OllamaClient._make_request`:
a response with a status code and the result of `response.json()`
(`.error` when the body is not JSON), a timeout, or any other raised
exception. -/
inductive HttpOutcome where
  | response (statusCode : Nat) (body : Except String Val)
  | timeout
  | failure (msg : String)
deriving Repr

/-- `OllamaClient._make_request`: the parsed JSON body exactly on a
status-200 response with a decodable body and a supported method; `none`
on unsupported methods (the `ValueError` is swallowed by the same
`except`), non-200 statuses, JSON decoding errors, timeouts and other
exceptions. -/
def make_request (method : String) (outcome : HttpOutcome) : Option Val :=
  if method ≠ "GET" ∧ method ≠ "POST" then none
  else
    match outcome with
    | .response code body =>
        if code = 200 then
          match body with
          | .ok v => some v
          | .error _ => none
        else none
    | .timeout => none
    | .failure _ => none

/-- `OllamaClient.list_models`: issues `GET /api/tags` and extracts
`[model["name"] for model in response["models"]]` when the response is
truthy and has a `models` key; every failure path yields the empty
list. -/
def list_models (outcome : HttpOutcome) : List Val :=
  match make_request "GET" outcome with
  | none => []
  | some response =>
    if ¬response.truthy then []
    else
      match response.pyIn "models" with
      | .error _ => []
      | .ok false => []
      | .ok true =>
        let names : Except String (List Val) := do
          let modelsVal ← response.pyIndex "models"
          let models ← modelsVal.pyIter
          models.mapM (fun m => m.pyIndex "name")
        match names with
        | .ok ns => ns
        | .error _ => []

/-! ## Concrete sample data for evaluating the definitions -/

/-- A minimal valid advanced-generation request. -/
def sampleRequest : AdvancedGenerationRequest :=
  { projectId := "proj-1"
    generationType := "website_content"
    businessContext := [("name", .vStr "Acme")]
    contentRequirements := [] }

/-- A stored generation record that has entered its first workflow step. -/
def sampleGenRecord : GenRecord :=
  { generationId := "gen-1"
    projectId := "proj-1"
    status := .initializing
    createdAt := 0
    workflowSteps := [{ stepName := "initialization", status := "running" }] }

/-- A freshly created workflow state (no errors, zero retries). -/
def sampleState : WorkflowState :=
  { projectId := "proj-1"
    userId := "user-1"
    wizardData := [("businessInfo", .vDict [("name", .vStr "Acme Clinic")])] }

/-- A trivial stand-in for the LLM-backed page builders. -/
def oracle0 : String → Val :=
  fun page => .vDict [("page", .vStr page), ("text", .vStr "generated copy")]

/-- A wizard payload with no selected services and no blog. -/
def wiz0 : AList :=
  [("businessInfo", .vDict [("name", .vStr "Acme Clinic")])]

/-- A wizard payload with selected services and a blog. -/
def wiz1 : AList :=
  [("businessInfo", .vDict [("name", .vStr "Acme Clinic")]),
   ("selectedServices", .vList [.vDict [("name", .vStr "Checkups")]]),
   ("websiteStructure", .vDict [("hasBlog", .vBool true)])]

/-! ## Helper lemmas -/

theorem AList.get?_cons (k1 : String) (v1 : Val) (rest : AList) (k2 : String) :
    AList.get? ((k1, v1) :: rest) k2 =
      if k1 = k2 then some v1 else AList.get? rest k2 := by
  by_cases h : k1 = k2
  · simp [AList.get?, List.find?_cons, h]
  · simp [AList.get?, List.find?_cons, h]

theorem AList.get?_set_self (d : AList) (k : String) (v : Val) :
    (AList.set d k v).get? k = some v := by
  induction d with
  | nil => simp [AList.set, AList.get?_cons]
  | cons kv rest ih =>
      by_cases h : kv.1 = k
      · simp [AList.set, AList.get?_cons, h]
      · cases kv with
        | mk k1 v1 =>
            simp only at h
            simp [AList.set, AList.get?_cons, h, ih]

theorem AList.get?_set_ne (d : AList) (k : String) (v : Val) (k2 : String)
    (h : k2 ≠ k) : (AList.set d k v).get? k2 = d.get? k2 := by
  induction d with
  | nil => simp [AList.set, AList.get?_cons, Ne.symm h, AList.get?]
  | cons kv rest ih =>
      cases kv with
      | mk k1 v1 =>
          by_cases hkv : k1 = k
          · subst hkv
            simp [AList.set, AList.get?_cons, Ne.symm h]
          · simp [AList.set, AList.get?_cons, hkv, ih]

theorem AList.hasKey_set_self (d : AList) (k : String) (v : Val) :
    (AList.set d k v).hasKey k = true := by
  simp [AList.hasKey, AList.get?_set_self]

theorem AList.hasKey_set_ne (d : AList) (k : String) (v : Val) (k2 : String)
    (h : k2 ≠ k) : (AList.set d k v).hasKey k2 = d.hasKey k2 := by
  simp [AList.hasKey, AList.get?_set_ne d k v k2 h]

theorem AList.truthyAt_set_ne (d : AList) (k : String) (v : Val) (k2 : String)
    (h : k2 ≠ k) : (AList.set d k v).truthyAt k2 = d.truthyAt k2 := by
  simp [AList.truthyAt, AList.get?_set_ne d k v k2 h]

theorem AList.hasKey_foldl_set_ne (adds : List (String × Val)) (c : AList)
    (k : String) (h : ∀ kv ∈ adds, kv.1 ≠ k) :
    (adds.foldl (fun acc kv => AList.set acc kv.1 kv.2) c).hasKey k =
      c.hasKey k := by
  induction adds generalizing c with
  | nil => rfl
  | cons kv rest ih =>
      have hkv : kv.1 ≠ k := h kv (List.mem_cons_self kv rest)
      have hrest : ∀ kv2 ∈ rest, kv2.1 ≠ k :=
        fun kv2 hm => h kv2 (List.mem_cons_of_mem kv hm)
      rw [List.foldl_cons, ih _ hrest,
        AList.hasKey_set_ne c kv.1 kv.2 k (Ne.symm hkv)]

theorem updateLast_getLast? (f : α → α) (l : List α) :
    (updateLast f l).getLast? = l.getLast?.map f := by
  induction l with
  | nil => rfl
  | cons x rest ih =>
      cases rest with
      | nil => rfl
      | cons y tail =>
          obtain ⟨h, t, hht⟩ : ∃ h t, updateLast f (y :: tail) = h :: t := by
            cases tail <;> exact ⟨_, _, rfl⟩
          calc (updateLast f (x :: y :: tail)).getLast?
              = (x :: updateLast f (y :: tail)).getLast? := rfl
            _ = (updateLast f (y :: tail)).getLast? := by
                rw [hht, List.getLast?_cons_cons]
            _ = ((y :: tail).getLast?).map f := ih
            _ = ((x :: y :: tail).getLast?).map f := by
                rw [List.getLast?_cons_cons]

theorem AList.truthy_getD_empty (d : AList) (k : String) :
    (d.getD k (.vDict [])).truthy = d.truthyAt k := by
  unfold AList.getD AList.truthyAt
  cases d.get? k <;> simp [Val.truthy]

theorem update_progress_generatedContent (s : WorkflowState) (step : String)
    (p : Rat) (status : Option WorkflowStatus) (now : Rat) :
    (s.update_progress step p status now).generatedContent =
      s.generatedContent := by
  unfold WorkflowState.update_progress
  split <;> try split
  all_goals rfl

theorem update_progress_metadata (s : WorkflowState) (step : String)
    (p : Rat) (status : Option WorkflowStatus) (now : Rat) :
    (s.update_progress step p status now).metadata = s.metadata := by
  unfold WorkflowState.update_progress
  split <;> try split
  all_goals rfl

theorem update_progress_errors (s : WorkflowState) (step : String)
    (p : Rat) (status : Option WorkflowStatus) (now : Rat) :
    (s.update_progress step p status now).errors = s.errors := by
  unfold WorkflowState.update_progress
  split <;> try split
  all_goals rfl

theorem foldl_add_error_fields (es : List String) (st : WorkflowState)
    (a : String) (now : Rat) :
    (es.foldl (fun acc e => acc.add_error e (some a) now) st).errors =
      st.errors ++ es.map (fun e => "[" ++ a ++ "] " ++ e) ∧
    (es.foldl (fun acc e => acc.add_error e (some a) now) st).generatedContent =
      st.generatedContent ∧
    (es.foldl (fun acc e => acc.add_error e (some a) now) st).metadata =
      st.metadata ∧
    (es.foldl (fun acc e => acc.add_error e (some a) now) st).agentResults =
      st.agentResults ∧
    (es.foldl (fun acc e => acc.add_error e (some a) now) st).status =
      st.status := by
  induction es generalizing st with
  | nil => simp
  | cons e rest ih =>
      obtain ⟨he, hg, hm, ha, hs⟩ := ih (st.add_error e (some a) now)
      refine ⟨?_, ?_, ?_, ?_, ?_⟩
      · rw [List.foldl_cons, he]
        simp [WorkflowState.add_error]
      · rw [List.foldl_cons, hg]
        simp [WorkflowState.add_error]
      · rw [List.foldl_cons, hm]
        simp [WorkflowState.add_error]
      · rw [List.foldl_cons, ha]
        simp [WorkflowState.add_error]
      · rw [List.foldl_cons, hs]
        simp [WorkflowState.add_error]

/-! ## Claim theorems -/

theorem update_progress_progress_eq (s : WorkflowState) (step : String)
    (p : Rat) (status : Option WorkflowStatus) (now : Rat) :
    (s.update_progress step p status now).progress =
      if status = some .completed then 100 else min 100 (max 0 p) := by
  simp only [WorkflowState.update_progress]
  split
  · simp
  · split <;> rfl

/-- C8: `WorkflowState.update_progress` always leaves `progress` in
[0, 100], and passing the COMPLETED status forces progress to exactly 100
and records the completion time. -/
theorem update_progress_bounds (s : WorkflowState) (step : String) (p : Rat)
    (status : Option WorkflowStatus) (now : Rat) :
    0 ≤ (s.update_progress step p status now).progress ∧
    (s.update_progress step p status now).progress ≤ 100 ∧
    (s.update_progress step p (some .completed) now).progress = 100 ∧
    (s.update_progress step p (some .completed) now).completedAt = some now := by
  have hlow : (0 : Rat) ≤ min 100 (max 0 p) :=
    le_min (by norm_num) (le_max_left 0 p)
  have hhigh : min (100 : Rat) (max 0 p) ≤ 100 := min_le_left _ _
  refine ⟨?_, ?_, ?_, rfl⟩
  · rw [update_progress_progress_eq]
    split <;> [norm_num; exact hlow]
  · rw [update_progress_progress_eq]
    split <;> [norm_num; exact hhigh]
  · rw [update_progress_progress_eq]
    simp

/-- C1: the compiled graph runs the stages in the fixed order
requirements → content → SEO → structure → finalize; after each stage it
proceeds to the next exactly when there are no recorded errors (unless
`skip_on_errors` is set) and the stage-specific output check passes, and
otherwise moves to the error handler; finalize and the error handler
both terminate at END. -/
theorem workflow_graph_order (cfg : WorkflowConfig) (s : WorkflowState)
    (now : Rat) :
    (workflowNext cfg .analyzeRequirements s now =
      some (if (s.errors ≠ [] ∧ ¬cfg.skipOnErrors) ∨
          ¬s.metadata.truthyAt "content_strategy"
        then .handleError else .generateContent)) ∧
    (workflowNext cfg .generateContent s now =
      some (if (s.errors ≠ [] ∧ ¬cfg.skipOnErrors) ∨ s.generatedContent.isEmpty
        then .handleError else .optimizeSeo)) ∧
    (workflowNext cfg .optimizeSeo s now =
      some (if s.errors ≠ [] ∧ ¬cfg.skipOnErrors
        then .handleError else .planStructure)) ∧
    (workflowNext cfg .planStructure s now =
      some (if s.errors ≠ [] ∧ ¬cfg.skipOnErrors
        then .handleError else .finalizeOutput)) ∧
    workflowNext cfg .finalizeOutput s now = some .endNode ∧
    workflowNext cfg .handleError s now = some .endNode ∧
    workflowNext cfg .endNode s now = none := by
  refine ⟨?_, ?_, ?_, ?_, rfl, rfl, rfl⟩ <;>
    simp only [workflowNext, should_continue_after_requirements,
      should_continue_after_content, should_continue_after_seo,
      should_continue_after_structure] <;>
    split_ifs <;> simp_all

/-- C6: a model is classified healthy exactly when a status record exists
with status "available", at most 5 errors, a last test (when recorded) at
most one hour old, and a performance score of at least 50; and every
computed performance score lies in [0, 100]. -/
theorem model_health_and_score :
    (∀ (statuses : ModelStatuses) (modelName : String) (now : Rat),
      is_model_healthy statuses modelName now = true ↔
      ∃ st, ModelStatuses.lookup statuses modelName = some st ∧
        st.status = "available" ∧ st.errorCount ≤ 5 ∧
        (∀ t, st.lastTested = some t → now - t ≤ 3600) ∧
        50 ≤ st.performanceScore) ∧
    (∀ (status : ModelStatus) (evalCount evalDuration : Rat),
      0 ≤ calculate_performance_score status evalCount evalDuration ∧
      calculate_performance_score status evalCount evalDuration ≤ 100) := by
  constructor
  · intro statuses modelName now
    unfold is_model_healthy
    cases h : ModelStatuses.lookup statuses modelName with
    | none => simp
    | some st =>
        dsimp only
        constructor
        · intro hh
          by_cases h1 : st.status ≠ "available"
          · rw [if_pos h1] at hh
            exact absurd hh (by simp)
          · rw [if_neg h1] at hh
            by_cases h2 : st.errorCount > 5
            · rw [if_pos h2] at hh
              exact absurd hh (by simp)
            · rw [if_neg h2] at hh
              by_cases h3 : (match st.lastTested with
                  | some t => decide (now - t > 3600)
                  | none => false) = true
              · rw [if_pos h3] at hh
                exact absurd hh (by simp)
              · rw [if_neg h3] at hh
                by_cases h4 : st.performanceScore < 50
                · rw [if_pos h4] at hh
                  exact absurd hh (by simp)
                · refine ⟨st, rfl, not_not.mp h1, by omega, ?_,
                    le_of_not_lt h4⟩
                  intro t ht
                  rw [ht] at h3
                  simp only [decide_eq_true_eq, not_lt] at h3
                  exact h3
        · rintro ⟨st2, hst2, havail, herr, htest, hscore⟩
          have hst : st2 = st := by
            injection hst2 with hst2
            exact hst2.symm
          subst hst
          rw [if_neg (by simp [havail]), if_neg (by omega),
            if_neg ?_, if_neg (not_lt.mpr hscore)]
          cases ht : st2.lastTested with
          | none => simp
          | some t =>
              simp only [decide_eq_true_eq, not_lt]
              exact htest t ht
  · intro status evalCount evalDuration
    unfold calculate_performance_score
    constructor
    · exact le_max_left 0 _
    · rw [max_le_iff]
      refine ⟨by norm_num, ?_⟩
      dsimp only
      split_ifs
      all_goals
        try have hp1 : (0 : Rat) ≤ min 30 ((status.testLatency - 2) * 10) :=
          le_min (by norm_num) (by nlinarith)
      all_goals
        have hp2 : (0 : Rat) ≤ min 20 ((status.errorCount : Rat) * 5) :=
          le_min (by norm_num) (by positivity)
      all_goals
        try have hp3 : (0 : Rat) ≤
            min 20 ((10 - evalCount / (evalDuration / 1000000000)) * 2) :=
          le_min (by norm_num) (by nlinarith)
      all_goals linarith

/-- C10: `_make_request` yields the parsed JSON body exactly on a
status-200 response, and `None` on non-200 statuses, timeouts and other
exceptions; `list_models` yields `[]` whenever the request fails or the
response lacks a `models` key, and otherwise extracts the model names. -/
theorem make_request_and_list_models :
    (∀ (outcome : HttpOutcome),
      make_request "GET" outcome =
        (match outcome with
          | .response code (.ok v) => if code = 200 then some v else none
          | _ => none)) ∧
    (∀ (outcome : HttpOutcome),
      make_request "POST" outcome =
        (match outcome with
          | .response code (.ok v) => if code = 200 then some v else none
          | _ => none)) ∧
    (∀ (outcome : HttpOutcome),
      make_request "GET" outcome = none → list_models outcome = []) ∧
    (∀ (kvs : AList), AList.hasKey kvs "models" = false →
      list_models (.response 200 (.ok (.vDict kvs))) = []) ∧
    (∀ (kvs : AList) (models : List Val) (names : List Val),
      AList.get? kvs "models" = some (.vList models) →
      models.mapM (fun m => m.pyIndex "name") = .ok names →
      list_models (.response 200 (.ok (.vDict kvs))) = names) := by
  refine ⟨?_, ?_, ?_, ?_, ?_⟩
  · intro outcome
    cases outcome with
    | response code body => cases body <;> simp [make_request]
    | timeout => rfl
    | failure msg => rfl
  · intro outcome
    cases outcome with
    | response code body => cases body <;> simp [make_request]
    | timeout => rfl
    | failure msg => rfl
  · intro outcome h
    unfold list_models
    rw [h]
  · intro kvs h
    unfold list_models
    have hmr : make_request "GET" (.response 200 (.ok (.vDict kvs))) =
        some (.vDict kvs) := rfl
    rw [hmr]
    dsimp only
    have hin : (Val.vDict kvs).pyIn "models" = .ok false := by
      simp [Val.pyIn, h]
    by_cases ht : (Val.vDict kvs).truthy = true
    · rw [if_neg (by simp [ht]), hin]
    · rw [if_pos (by simp [ht])]
  · intro kvs models names hget hmap
    unfold list_models
    have hmr : make_request "GET" (.response 200 (.ok (.vDict kvs))) =
        some (.vDict kvs) := rfl
    rw [hmr]
    dsimp only
    have htruthy : (Val.vDict kvs).truthy = true := by
      cases kvs with
      | nil => simp [AList.get?] at hget
      | cons kv rest => rfl
    have hin : (Val.vDict kvs).pyIn "models" = .ok true := by
      simp [Val.pyIn, AList.hasKey, hget]
    have hidx : (Val.vDict kvs).pyIndex "models" = .ok (.vList models) := by
      simp [Val.pyIndex, hget]
    rw [if_neg (by simp [htruthy]), hin]
    dsimp only
    rw [hidx]
    simp only [bind, Except.bind, Val.pyIter, hmap]

/-- C4 evidence: `start_advanced_generation` raises `AttributeError` on
every request — the debug logging block reads `request.model_settings`,
which `AdvancedGenerationRequest` does not declare — so the handler never
reaches the line that stores the generation record. -/
theorem start_generation_crashes_on_model_settings
    (store : GenStore) (req : AdvancedGenerationRequest)
    (generationId requestId : String) (now : Rat) :
    start_advanced_generation store req generationId requestId now =
      .error "AttributeError: model_settings" := rfl

/-- C2: when an exception escapes the body of
`process_advanced_generation`, the stored record ends FAILED with the
exception message, a completion timestamp, and its most recent workflow
step marked failed; and when execution raises inside `BaseWorkflow.run`,
the workflow state is returned (not the exception propagated) with status
FAILED and the error appended. -/
theorem generation_and_workflow_failure :
    (∀ (body : GenRecord → Except String GenRecord) (record : GenRecord)
        (e : String) (now : Rat), body record = .error e →
      (process_advanced_generation body record now).status = .failed ∧
      (process_advanced_generation body record now).error = some e ∧
      (process_advanced_generation body record now).completedAt = some now ∧
      (record.workflowSteps ≠ [] →
        ∃ last,
          (process_advanced_generation body record now).workflowSteps.getLast?
            = some last ∧
          last.status = "failed" ∧ last.error = some e)) ∧
    (∀ (body : WorkflowState → Except (String × WorkflowState) WorkflowState)
        (e : String) (stAtRaise initialState : WorkflowState) (now : Rat),
      body { initialState with status := .running } = .error (e, stAtRaise) →
      (workflow_run body initialState now).status = .failed ∧
      (workflow_run body initialState now).errors
        = stAtRaise.errors ++ ["Workflow execution failed: " ++ e]) := by
  constructor
  · intro body record e now hbody
    unfold process_advanced_generation
    rw [hbody]
    dsimp only
    unfold mark_generation_failed
    refine ⟨?_, ?_, ?_, ?_⟩
    · dsimp only
      split <;> rfl
    · dsimp only
      split <;> rfl
    · dsimp only
      split <;> rfl
    · intro hne
      dsimp only
      rw [if_neg (by simpa [List.isEmpty_iff] using hne)]
      obtain ⟨last0, hlast0⟩ : ∃ last0, record.workflowSteps.getLast? = some last0 :=
        ⟨record.workflowSteps.getLast hne,
          List.getLast?_eq_getLast_of_ne_nil hne⟩
      refine ⟨{ last0 with
        status := "failed", error := some e, completedAt := some now },
        ?_, rfl, rfl⟩
      dsimp only
      rw [updateLast_getLast?, hlast0]
      rfl
  · intro body e stAtRaise initialState now hbody
    unfold workflow_run
    dsimp only
    rw [hbody]
    exact ⟨rfl, by simp [WorkflowState.add_error]⟩

/-- C2 witness: a record with one running step processed by a body that
raises "boom", and a workflow run whose body raises "net down". -/
theorem generation_and_workflow_failure_witness :
    (process_advanced_generation (fun _ => .error "boom") sampleGenRecord 5).status
      = .failed ∧
    (process_advanced_generation (fun _ => .error "boom") sampleGenRecord 5).error
      = some "boom" ∧
    (∃ last,
      (process_advanced_generation (fun _ => .error "boom") sampleGenRecord 5).workflowSteps.getLast?
        = some last ∧ last.status = "failed" ∧ last.error = some "boom") ∧
    (workflow_run (fun _ => .error ("net down", sampleState)) sampleState 0).errors
      = ["Workflow execution failed: net down"] := by
  have h1 := generation_and_workflow_failure.1 (fun _ => .error "boom")
    sampleGenRecord "boom" 5 rfl
  have h2 := generation_and_workflow_failure.2
    (fun _ => .error ("net down", sampleState)) "net down" sampleState
    sampleState 0 rfl
  exact ⟨h1.1, h1.2.1, h1.2.2.2 (by simp [sampleGenRecord]),
    by simpa [sampleState] using h2.2⟩

theorem execute_with_retry_all_fail
    (g : Nat → WorkflowState → Except String WorkflowState) (e : String)
    (hfail : ∀ n s, g n s = .error e) :
    ∀ (k : Nat) (st : WorkflowState) (now : Rat),
      st.maxRetries - st.retryCount = k →
      (execute_with_retry g st now).result = .error e ∧
      (execute_with_retry g st now).sleeps =
        (List.range k).map (fun i => min (2 ^ (st.retryCount + i + 1)) 30) ∧
      (execute_with_retry g st now).finalSelf.retryCount =
        max st.retryCount st.maxRetries ∧
      (execute_with_retry g st now).finalSelf.errors =
        (if k = 0 then st.errors else []) ++
          ["Max retries reached. " ++ ("Execution attempt " ++
            toString (max st.retryCount st.maxRetries + 1) ++
            " failed: " ++ e)] ∧
      (execute_with_retry g st now).finalSelf.warnings =
        st.warnings ++ List.replicate k ("Retrying after error: " ++ e) := by
  intro k
  induction k with
  | zero =>
      intro st now hk
      have hcr : ¬st.can_retry = true := by
        simp only [WorkflowState.can_retry, decide_eq_true_eq]
        omega
      have hmax : max st.retryCount st.maxRetries = st.retryCount :=
        Nat.max_eq_left (by omega)
      unfold execute_with_retry
      rw [hfail st.retryCount st]
      dsimp only
      rw [dif_neg hcr]
      refine ⟨rfl, by simp, ?_, ?_, ?_⟩
      · simp [WorkflowState.add_error, hmax]
      · simp [WorkflowState.add_error, hmax]
      · simp [WorkflowState.add_error]
  | succ k ih =>
      intro st now hk
      have hcr : st.can_retry = true := by
        simp only [WorkflowState.can_retry, decide_eq_true_eq]
        omega
      unfold execute_with_retry
      rw [hfail st.retryCount st]
      dsimp only
      rw [dif_pos hcr]
      dsimp only
      have hk2 : (((st.increment_retry now).add_warning
          ("Retrying after error: " ++ e) none now).reset_for_retry
            now).maxRetries -
          (((st.increment_retry now).add_warning
            ("Retrying after error: " ++ e) none now).reset_for_retry
              now).retryCount = k := by
        simp only [WorkflowState.increment_retry, WorkflowState.add_warning,
          WorkflowState.reset_for_retry]
        omega
      obtain ⟨hres, hsleeps, hrc, herr, hwarn⟩ := ih _ now hk2
      have hmax2 : max (st.retryCount + 1) st.maxRetries =
          max st.retryCount st.maxRetries := by omega
      refine ⟨hres, ?_, ?_, ?_, ?_⟩
      · rw [List.range_succ_eq_map, List.map_cons, List.map_map, hsleeps]
        congr 1
        apply List.map_congr_left
        intro a ha
        simp only [WorkflowState.increment_retry, WorkflowState.add_warning,
          WorkflowState.reset_for_retry, Function.comp_apply]
        rw [show st.retryCount + 1 + a + 1 = st.retryCount + Nat.succ a + 1
          from by omega]
      · rw [hrc]
        simp only [WorkflowState.increment_retry, WorkflowState.add_warning,
          WorkflowState.reset_for_retry]
        omega
      · rw [herr]
        simp only [WorkflowState.increment_retry, WorkflowState.add_warning,
          WorkflowState.reset_for_retry]
        simp [hmax2]
      · rw [hwarn]
        simp only [WorkflowState.increment_retry, WorkflowState.add_warning,
          WorkflowState.reset_for_retry]
        simp [List.replicate_succ]

/-- C3: when graph execution keeps raising, `_execute_with_retry` retries
exactly while `retry_count < max_retries`: before each retry it increments
the counter, sleeps `min (2 ^ retry_count) 30` seconds, and resets the
state (errors cleared, status PENDING, progress 0, current step empty);
once the counter reaches `max_retries` it appends a max-retries error and
re-raises the exception. -/
theorem retry_backoff_behavior
    (g : Nat → WorkflowState → Except String WorkflowState) (e : String)
    (st : WorkflowState) (now : Rat)
    (hfail : ∀ n s, g n s = .error e) (h0 : st.retryCount = 0) :
    (execute_with_retry g st now).result = .error e ∧
    (execute_with_retry g st now).sleeps =
      (List.range st.maxRetries).map (fun i => min (2 ^ (i + 1)) 30) ∧
    (execute_with_retry g st now).finalSelf.retryCount = st.maxRetries ∧
    (execute_with_retry g st now).finalSelf.errors =
      (if st.maxRetries = 0 then st.errors else []) ++
        ["Max retries reached. " ++ ("Execution attempt " ++
          toString (st.maxRetries + 1) ++ " failed: " ++ e)] ∧
    (execute_with_retry g st now).finalSelf.warnings =
      st.warnings ++
        List.replicate st.maxRetries ("Retrying after error: " ++ e) ∧
    (∀ (s : WorkflowState) (t : Rat),
      (s.reset_for_retry t).errors = [] ∧
      (s.reset_for_retry t).status = .pending ∧
      (s.reset_for_retry t).progress = 0 ∧
      (s.reset_for_retry t).currentStep = "") := by
  have hk : st.maxRetries - st.retryCount = st.maxRetries := by omega
  obtain ⟨hres, hsleeps, hrc, herr, hwarn⟩ :=
    execute_with_retry_all_fail g e hfail st.maxRetries st now hk
  have hmax : max st.retryCount st.maxRetries = st.maxRetries := by omega
  refine ⟨hres, ?_, ?_, ?_, hwarn, ?_⟩
  · rw [hsleeps]
    refine List.map_congr_left (fun i _ => ?_)
    rw [h0]
    simp
  · rw [hrc, hmax]
  · rw [herr, hmax]
  · intro s t
    exact ⟨rfl, rfl, rfl, rfl⟩

/-- C3 witness: with max_retries 3 (the default) and a permanently
failing graph, the waits are 2, 4 and 8 seconds and the exception is
re-raised after the third retry. -/
theorem retry_backoff_behavior_witness :
    (execute_with_retry (fun _ _ => .error "ollama down") sampleState 0).result
      = .error "ollama down" ∧
    (execute_with_retry (fun _ _ => .error "ollama down") sampleState 0).sleeps
      = [2, 4, 8] ∧
    (execute_with_retry (fun _ _ => .error "ollama down")
      sampleState 0).finalSelf.retryCount = 3 := by
  have h := retry_backoff_behavior (fun _ _ => .error "ollama down")
    "ollama down" sampleState 0 (fun _ _ => rfl) rfl
  refine ⟨h.1, ?_, ?_⟩
  · rw [h.2.1]
    decide
  · rw [h.2.2.1]
    rfl

theorem pkg_truthyAt_content (s : WorkflowState) (now : Rat) (v : Val) :
    ((finalOutputPackage s now).set "validation" v).truthyAt "content" =
      !s.generatedContent.isEmpty := rfl

theorem pkg_truthyAt_structure (s : WorkflowState) (now : Rat) (v : Val) :
    ((finalOutputPackage s now).set "validation" v).truthyAt "structure" =
      s.metadata.truthyAt "site_structure" := by
  have h : ((finalOutputPackage s now).set "validation" v).truthyAt "structure" =
      (s.metadata.getD "site_structure" (.vDict [])).truthy := rfl
  rw [h, AList.truthy_getD_empty]

theorem pkg_truthyAt_navigation (s : WorkflowState) (now : Rat) (v : Val) :
    ((finalOutputPackage s now).set "validation" v).truthyAt "navigation" =
      s.metadata.truthyAt "navigation" := by
  have h : ((finalOutputPackage s now).set "validation" v).truthyAt "navigation" =
      (s.metadata.getD "navigation" (.vDict [])).truthy := rfl
  rw [h, AList.truthy_getD_empty]

theorem pkg_get?_content (s : WorkflowState) (now : Rat) (v : Val) :
    AList.get? ((finalOutputPackage s now).set "validation" v) "content" =
      some (.vDict s.generatedContent) := rfl

theorem pkg_get?_seo (s : WorkflowState) (now : Rat) (v : Val) :
    AList.get? ((finalOutputPackage s now).set "validation" v) "seo" =
      some (s.metadata.getD "seo_optimization" (.vDict [])) := rfl

theorem pkg_get?_structure (s : WorkflowState) (now : Rat) (v : Val) :
    AList.get? ((finalOutputPackage s now).set "validation" v) "structure" =
      some (s.metadata.getD "site_structure" (.vDict [])) := rfl

theorem pkg_get?_navigation (s : WorkflowState) (now : Rat) (v : Val) :
    AList.get? ((finalOutputPackage s now).set "validation" v) "navigation" =
      some (s.metadata.getD "navigation" (.vDict [])) := rfl

theorem pkg_get?_validation (s : WorkflowState) (now : Rat) (v : Val) :
    AList.get? ((finalOutputPackage s now).set "validation" v) "validation" =
      some v := rfl

theorem finalize_missing_empty_iff (validation : Val) (s : WorkflowState)
    (now : Rat) :
    (["content", "structure", "navigation"].filter
      (fun sec => !((finalOutputPackage
        (s.update_progress "Finalizing output" 98 none now) now).set
          "validation" validation).truthyAt sec) = []) ↔
    (s.generatedContent.isEmpty = false ∧
      s.metadata.truthyAt "site_structure" = true ∧
      s.metadata.truthyAt "navigation" = true) := by
  simp only [List.filter_cons, List.filter_nil, pkg_truthyAt_content,
    pkg_truthyAt_structure, pkg_truthyAt_navigation,
    update_progress_generatedContent, update_progress_metadata]
  cases hb1 : s.generatedContent.isEmpty <;>
    cases hb2 : s.metadata.truthyAt "site_structure" <;>
      cases hb3 : s.metadata.truthyAt "navigation" <;> simp

/-- C7: `_finalize_output_node` packages the generated copy, the SEO
metadata and the structure/navigation plan into the final output; when any
required section (content, structure, navigation) is empty the state
gains an error and becomes FAILED, and otherwise the final output is
stored in the state metadata and the state is COMPLETED with progress
100. -/
theorem finalize_output_packaging (validation : Val) (s : WorkflowState)
    (now : Rat) :
    if s.generatedContent.isEmpty = true ∨
        s.metadata.truthyAt "site_structure" = false ∨
        s.metadata.truthyAt "navigation" = false then
      (finalize_output_node validation s now).status = .failed ∧
      (finalize_output_node validation s now).errors.length =
        s.errors.length + 1 ∧
      (finalize_output_node validation s now).metadata.get? "final_output" =
        s.metadata.get? "final_output"
    else
      (finalize_output_node validation s now).status = .completed ∧
      (finalize_output_node validation s now).progress = 100 ∧
      (finalize_output_node validation s now).completedAt = some now ∧
      ∃ pkg,
        (finalize_output_node validation s now).metadata.get? "final_output" =
          some (.vDict pkg) ∧
        AList.get? pkg "content" = some (.vDict s.generatedContent) ∧
        AList.get? pkg "seo" =
          some (s.metadata.getD "seo_optimization" (.vDict [])) ∧
        AList.get? pkg "structure" =
          some (s.metadata.getD "site_structure" (.vDict [])) ∧
        AList.get? pkg "navigation" =
          some (s.metadata.getD "navigation" (.vDict [])) ∧
        AList.get? pkg "validation" = some validation := by
  split
  · rename_i h
    unfold finalize_output_node
    dsimp only
    have hne : ¬(["content", "structure", "navigation"].filter
        (fun sec => !((finalOutputPackage
          (s.update_progress "Finalizing output" 98 none now) now).set
            "validation" validation).truthyAt sec) = []) := by
      intro heq
      rw [finalize_missing_empty_iff] at heq
      obtain ⟨ha, hb, hcn⟩ := heq
      rcases h with h | h | h
      · rw [h] at ha
        exact absurd ha (by simp)
      · rw [h] at hb
        exact absurd hb (by simp)
      · rw [h] at hcn
        exact absurd hcn (by simp)
    rw [if_pos hne]
    refine ⟨rfl, ?_, ?_⟩
    · simp [WorkflowState.add_error, update_progress_errors]
    · simp [WorkflowState.add_error, update_progress_metadata]
  · rename_i h
    push_neg at h
    obtain ⟨ha, hb, hcn⟩ := h
    have h1 : List.isEmpty s.generatedContent = false := by simpa using ha
    have h2 : s.metadata.truthyAt "site_structure" = true := by simpa using hb
    have h3 : s.metadata.truthyAt "navigation" = true := by simpa using hcn
    unfold finalize_output_node
    dsimp only
    have heq : (["content", "structure", "navigation"].filter
        (fun sec => !((finalOutputPackage
          (s.update_progress "Finalizing output" 98 none now) now).set
            "validation" validation).truthyAt sec) = []) := by
      rw [finalize_missing_empty_iff]
      exact ⟨h1, h2, h3⟩
    rw [if_neg (by simp [heq])]
    refine ⟨rfl, rfl, rfl, ?_⟩
    refine ⟨(finalOutputPackage
      (s.update_progress "Finalizing output" 98 none now) now).set
        "validation" validation, ?_, ?_, ?_, ?_, ?_, ?_⟩
    · rw [update_progress_metadata]
      dsimp only
      exact AList.get?_set_self _ _ _
    · rw [pkg_get?_content, update_progress_generatedContent]
    · rw [pkg_get?_seo, update_progress_metadata]
    · rw [pkg_get?_structure, update_progress_metadata]
    · rw [pkg_get?_navigation, update_progress_metadata]
    · rw [pkg_get?_validation]

/-- C9: `BaseAgent.safe_execute` never propagates an exception: on
validation failure the validation errors are appended (with the agent name
as step) and the state is otherwise unchanged; when `pre_execute`,
`execute` or `post_execute` raises, the error is appended and
`agent_results` records `success=False` with the error message (a raising
post-hook records against the pre-hook state, mirroring the Python local
variable flow); on success `agent_results` records `success=True` with
the execution time and the model used. -/
theorem safe_execute_behavior
    (validateInputs : WorkflowState → List String)
    (preExecute exec postExecute : WorkflowState → Except String WorkflowState)
    (agentName model : String) (executionTime : Rat) (stats : Val)
    (s : WorkflowState) (now : Rat) :
    (validateInputs s ≠ [] →
      (safe_execute validateInputs preExecute exec postExecute agentName
        model executionTime stats s now).errors =
        s.errors ++ (validateInputs s).map
          (fun e => "[" ++ agentName ++ "] " ++ e) ∧
      (safe_execute validateInputs preExecute exec postExecute agentName
        model executionTime stats s now).generatedContent =
        s.generatedContent ∧
      (safe_execute validateInputs preExecute exec postExecute agentName
        model executionTime stats s now).metadata = s.metadata ∧
      (safe_execute validateInputs preExecute exec postExecute agentName
        model executionTime stats s now).agentResults = s.agentResults ∧
      (safe_execute validateInputs preExecute exec postExecute agentName
        model executionTime stats s now).status = s.status) ∧
    (∀ e, validateInputs s = [] → preExecute s = .error e →
      (safe_execute validateInputs preExecute exec postExecute agentName
        model executionTime stats s now).errors =
        s.errors ++ ["[" ++ agentName ++ "] " ++
          ("Agent " ++ agentName ++ " failed: " ++ e)] ∧
      AList.get? (safe_execute validateInputs preExecute exec postExecute
        agentName model executionTime stats s now).agentResults agentName =
        some (.vDict
          [("result", .vDict
            [("success", .vBool false), ("error", .vStr e),
             ("execution_time", .vNum executionTime),
             ("model_used", .vStr model), ("stats", stats)]),
           ("timestamp", .vNum now), ("step", .vStr s.currentStep)])) ∧
    (∀ sp e, validateInputs s = [] → preExecute s = .ok sp →
      exec sp = .error e →
      (safe_execute validateInputs preExecute exec postExecute agentName
        model executionTime stats s now).errors =
        sp.errors ++ ["[" ++ agentName ++ "] " ++
          ("Agent " ++ agentName ++ " failed: " ++ e)] ∧
      AList.get? (safe_execute validateInputs preExecute exec postExecute
        agentName model executionTime stats s now).agentResults agentName =
        some (.vDict
          [("result", .vDict
            [("success", .vBool false), ("error", .vStr e),
             ("execution_time", .vNum executionTime),
             ("model_used", .vStr model), ("stats", stats)]),
           ("timestamp", .vNum now), ("step", .vStr sp.currentStep)])) ∧
    (∀ sp sr e, validateInputs s = [] → preExecute s = .ok sp →
      exec sp = .ok sr → postExecute sr = .error e →
      safe_execute validateInputs preExecute exec postExecute agentName
        model executionTime stats s now =
        agent_failure sp agentName model e executionTime stats now ∧
      (safe_execute validateInputs preExecute exec postExecute agentName
        model executionTime stats s now).errors =
        sp.errors ++ ["[" ++ agentName ++ "] " ++
          ("Agent " ++ agentName ++ " failed: " ++ e)] ∧
      AList.get? (safe_execute validateInputs preExecute exec postExecute
        agentName model executionTime stats s now).agentResults agentName =
        some (.vDict
          [("result", .vDict
            [("success", .vBool false), ("error", .vStr e),
             ("execution_time", .vNum executionTime),
             ("model_used", .vStr model), ("stats", stats)]),
           ("timestamp", .vNum now), ("step", .vStr sp.currentStep)])) ∧
    (∀ sp sr s2, validateInputs s = [] → preExecute s = .ok sp →
      exec sp = .ok sr → postExecute sr = .ok s2 →
      safe_execute validateInputs preExecute exec postExecute agentName
        model executionTime stats s now =
        s2.set_agent_result agentName (.vDict
          [("success", .vBool true),
           ("execution_time", .vNum executionTime),
           ("model_used", .vStr model), ("stats", stats)]) now ∧
      AList.get? (safe_execute validateInputs preExecute exec postExecute
        agentName model executionTime stats s now).agentResults agentName =
        some (.vDict
          [("result", .vDict
            [("success", .vBool true),
             ("execution_time", .vNum executionTime),
             ("model_used", .vStr model), ("stats", stats)]),
           ("timestamp", .vNum now), ("step", .vStr s2.currentStep)])) := by
  refine ⟨?_, ?_, ?_, ?_, ?_⟩
  · intro hval
    unfold safe_execute
    rw [if_pos hval]
    exact foldl_add_error_fields (validateInputs s) s agentName now
  · intro e hval hpre
    unfold safe_execute
    rw [if_neg (by simp [hval]), hpre]
    dsimp only
    constructor
    · simp [agent_failure, WorkflowState.set_agent_result,
        WorkflowState.add_error]
    · simp only [agent_failure, WorkflowState.set_agent_result,
        WorkflowState.add_error]
      exact AList.get?_set_self _ _ _
  · intro sp e hval hpre hexec
    unfold safe_execute
    rw [if_neg (by simp [hval]), hpre]
    dsimp only
    rw [hexec]
    dsimp only
    constructor
    · simp [agent_failure, WorkflowState.set_agent_result,
        WorkflowState.add_error]
    · simp only [agent_failure, WorkflowState.set_agent_result,
        WorkflowState.add_error]
      exact AList.get?_set_self _ _ _
  · intro sp sr e hval hpre hexec hpost
    unfold safe_execute
    rw [if_neg (by simp [hval]), hpre]
    dsimp only
    rw [hexec]
    dsimp only
    rw [hpost]
    dsimp only
    refine ⟨rfl, ?_, ?_⟩
    · simp [agent_failure, WorkflowState.set_agent_result,
        WorkflowState.add_error]
    · simp only [agent_failure, WorkflowState.set_agent_result,
        WorkflowState.add_error]
      exact AList.get?_set_self _ _ _
  · intro sp sr s2 hval hpre hexec hpost
    unfold safe_execute
    rw [if_neg (by simp [hval]), hpre]
    dsimp only
    rw [hexec]
    dsimp only
    rw [hpost]
    dsimp only
    refine ⟨rfl, ?_⟩
    simp only [WorkflowState.set_agent_result]
    exact AList.get?_set_self _ _ _

/-- C9 witness: with the base `validate_inputs`, trivial hooks and an
`execute` that raises "LLM timeout", the error is appended and the agent
result records the failure. -/
theorem safe_execute_behavior_witness :
    (safe_execute validate_inputs (fun st => .ok st)
      (fun _ => .error "LLM timeout") (fun st => .ok st) "ContentGenerator"
      "llama3.1:8b" 1 (.vDict []) sampleState 0).errors =
      ["[" ++ "ContentGenerator" ++ "] " ++
        ("Agent " ++ "ContentGenerator" ++ " failed: " ++ "LLM timeout")] ∧
    AList.get? (safe_execute validate_inputs (fun st => .ok st)
      (fun _ => .error "LLM timeout") (fun st => .ok st) "ContentGenerator"
      "llama3.1:8b" 1 (.vDict []) sampleState 0).agentResults
        "ContentGenerator" =
      some (.vDict
        [("result", .vDict
          [("success", .vBool false), ("error", .vStr "LLM timeout"),
           ("execution_time", .vNum 1),
           ("model_used", .vStr "llama3.1:8b"), ("stats", .vDict [])]),
         ("timestamp", .vNum 0), ("step", .vStr "")]) := by
  have h := (safe_execute_behavior validate_inputs (fun st => .ok st)
    (fun _ => .error "LLM timeout") (fun st => .ok st) "ContentGenerator"
    "llama3.1:8b" 1 (.vDict []) sampleState 0).2.2.1 sampleState "LLM timeout"
    rfl rfl rfl
  exact ⟨by simpa [sampleState] using h.1, h.2⟩

/-- C5 counterexample: for a wizard payload with no selected services and
no blog, the content generation stage produces only homepage, about and
contact entries — neither a `services` nor a `blog` entry exists, so not
every payload yields all five page types. -/
theorem content_five_pages_counterexample :
    (content_generator_content oracle0 wiz0).map
      (fun c => (c.hasKey "homepage", c.hasKey "about", c.hasKey "contact",
        c.hasKey "services", c.hasKey "blog", c.hasKey "blog_posts")) =
      .ok (true, true, true, false, false, false) := rfl

theorem generate_additional_pages_keys (oracle : String → Val)
    (wizardData : AList) (adds : List (String × Val))
    (h : generate_additional_pages oracle wizardData = .ok adds) :
    ∀ kv ∈ adds, kv.1 = "faq" ∨ kv.1 = "testimonials" ∨ kv.1 = "privacy" ∨
      kv.1 = "terms" := by
  unfold generate_additional_pages at h
  dsimp only at h
  cases hsp : (wizardData.getD "websiteStructure" (.vDict [])).pyGet
      "selectedPages" (.vList []) with
  | error e =>
      rw [hsp] at h
      simp [bind, Except.bind] at h
  | ok sp =>
      rw [hsp] at h
      simp only [bind, Except.bind] at h
      cases h1 : sp.pyIn "faq" with
      | error e => rw [h1] at h; simp at h
      | ok b1 =>
      rw [h1] at h
      cases h2 : sp.pyIn "testimonials" with
      | error e => rw [h2] at h; simp at h
      | ok b2 =>
      rw [h2] at h
      cases h3 : sp.pyIn "privacy" with
      | error e => rw [h3] at h; simp at h
      | ok b3 =>
      rw [h3] at h
      cases h4 : sp.pyIn "terms" with
      | error e => rw [h4] at h; simp at h
      | ok b4 =>
      rw [h4] at h
      simp only [pure, Except.pure, Except.ok.injEq] at h
      subst h
      intro kv hkv
      simp only [List.mem_append] at hkv
      have hsingle : ∀ (b : Bool) (k0 : String) (v0 : Val),
          kv ∈ (if b = true then [(k0, v0)] else []) → kv.1 = k0 := by
        intro b k0 v0 hm
        split at hm
        · simp only [List.mem_singleton] at hm
          rw [hm]
        · simp at hm
      rcases hkv with ((hkv | hkv) | hkv) | hkv
      · exact Or.inl (hsingle _ _ _ hkv)
      · exact Or.inr (Or.inl (hsingle _ _ _ hkv))
      · exact Or.inr (Or.inr (Or.inl (hsingle _ _ _ hkv)))
      · exact Or.inr (Or.inr (Or.inr (hsingle _ _ _ hkv)))

/-- C5 (amended): the generated content always contains homepage, about
and contact entries; it contains a `services` entry exactly when the
wizard payload's `selectedServices` is truthy, and a `blog_posts` entry
exactly when the website structure indicates a blog. -/
theorem content_pages_amended (oracle : String → Val) (wiz : AList)
    (content : AList)
    (h : content_generator_content oracle wiz = .ok content) :
    content.hasKey "homepage" = true ∧
    content.hasKey "about" = true ∧
    content.hasKey "contact" = true ∧
    content.hasKey "services" = wiz.truthyAt "selectedServices" ∧
    (∃ b, has_blog_structure wiz = .ok b ∧
      content.hasKey "blog_posts" = b) := by
  unfold content_generator_content at h
  dsimp only at h
  cases hblog : has_blog_structure wiz with
  | error e =>
      rw [hblog] at h
      simp [bind, Except.bind] at h
  | ok b =>
      rw [hblog] at h
      simp only [bind, Except.bind] at h
      cases hadd : generate_additional_pages oracle wiz with
      | error e => rw [hadd] at h; simp at h
      | ok adds =>
          rw [hadd] at h
          simp only [pure, Except.pure, Except.ok.injEq] at h
          subst h
          have hkeys := generate_additional_pages_keys oracle wiz adds hadd
          have hfold : ∀ (k : String), k ≠ "faq" → k ≠ "testimonials" →
              k ≠ "privacy" → k ≠ "terms" → ∀ (c : AList),
              (adds.foldl (fun acc kv => AList.set acc kv.1 kv.2) c).hasKey k
                = c.hasKey k := by
            intro k hk1 hk2 hk3 hk4 c
            refine AList.hasKey_foldl_set_ne adds c k (fun kv hm => ?_)
            rcases hkeys kv hm with hh | hh | hh | hh <;> rw [hh]
            · exact Ne.symm hk1
            · exact Ne.symm hk2
            · exact Ne.symm hk3
            · exact Ne.symm hk4
          refine ⟨?_, ?_, ?_, ?_, ⟨b, rfl, ?_⟩⟩ <;>
            rw [hfold _ (by decide) (by decide) (by decide) (by decide)] <;>
            by_cases hserv : wiz.truthyAt "selectedServices" = true <;>
            cases b <;>
            simp only [hserv, if_true, if_false, Bool.false_eq_true,
              eq_self_iff_true] <;>
            rfl

/-- C5 witness for the amended claim: a payload with selected services and
a blog yields content with homepage, services and blog_posts entries. -/
theorem content_pages_amended_witness :
    ∃ content, content_generator_content oracle0 wiz1 = .ok content ∧
      content.hasKey "homepage" = true ∧
      content.hasKey "services" = true ∧
      content.hasKey "blog_posts" = true := by
  refine ⟨((content_generator_content oracle0 wiz1).toOption).getD [],
    rfl, ?_, ?_, ?_⟩
  all_goals
    have h := content_pages_amended oracle0 wiz1
      (((content_generator_content oracle0 wiz1).toOption).getD []) rfl
  · exact h.1
  · rw [h.2.2.2.1]
    rfl
  · obtain ⟨b, hb, hkey⟩ := h.2.2.2.2
    rw [hkey]
    have : Except.ok (ε := String) true = .ok b := by
      rw [← hb]
      rfl
    injection this with hbb
    exact hbb.symm

/-- C10 witness: a timeout yields no parsed body and an empty model list,
and a well-formed tags response yields the two model names. -/
theorem make_request_and_list_models_witness :
    make_request "GET" HttpOutcome.timeout = none ∧
    list_models HttpOutcome.timeout = [] ∧
    list_models (.response 200 (.ok (.vDict
      [("models", .vList
        [.vDict [("name", .vStr "llama3.1:8b")],
         .vDict [("name", .vStr "mistral:7b")]])]))) =
      [.vStr "llama3.1:8b", .vStr "mistral:7b"] := by
  have h := make_request_and_list_models
  refine ⟨h.1 .timeout, h.2.2.1 .timeout rfl, ?_⟩
  exact h.2.2.2.2
    [("models", .vList
      [.vDict [("name", .vStr "llama3.1:8b")],
       .vDict [("name", .vStr "mistral:7b")]])]
    [.vDict [("name", .vStr "llama3.1:8b")],
     .vDict [("name", .vStr "mistral:7b")]]
    [.vStr "llama3.1:8b", .vStr "mistral:7b"] rfl rfl

/-- C6 witness: a recently tested available model with two errors and
score 80 is healthy, and a concrete computed score lies in [0, 100]. -/
theorem model_health_and_score_witness :
    is_model_healthy
      [("llama3.1:8b",
        { name := "llama3.1:8b", status := "available",
          lastTested := some 1000, testLatency := 1, errorCount := 2,
          performanceScore := 80 })] "llama3.1:8b" 2000 = true ∧
    0 ≤ calculate_performance_score
      { name := "m", status := "available", testLatency := 5,
        errorCount := 3 } 100 1000000000 ∧
    calculate_performance_score
      { name := "m", status := "available", testLatency := 5,
        errorCount := 3 } 100 1000000000 ≤ 100 := by
  have h := model_health_and_score
  refine ⟨?_, (h.2 _ 100 1000000000).1, (h.2 _ 100 1000000000).2⟩
  rw [h.1]
  refine ⟨_, rfl, rfl, by norm_num, ?_, by norm_num⟩
  intro t ht
  injection ht with ht2
  rw [← ht2]
  norm_num

end HugoBulder
